import Mathlib

/-!

Verification of the marlin-plotjog motion-intent pipeline.

Shallow embedding of the two source files of the repository:

* joystick.py — the Joystick device reader; the part relevant here is
  Joystick.poll, which decodes a raw event (a 16-bit signed value) into an
  AxisChange carrying fvalue = value / 32767.0, and returns None when the
  device read yields no bytes.
* plotjog.py — the pipeline: poll_joystick maps a poll result to a sparse
  (x, y) update pair; update_position folds sparse updates into an aggregate
  (the rx scan is seeded with the ordinary value pair (0, 0), not with None);
  the stream is filtered for fully-set pairs, combined with a slower interval
  via combine_latest, and fed to move_printer, which gates on the Euclidean
  norm and stores the scaled vector into the single-slot mailbox
  (new_position guarded by the condition variable cv); execute_move blocks on
  the mailbox, consumes the target and issues two G-code lines over the
  serial transport, each wrapped as flushInput, write, readline.

Python floats are modelled as rationals: every comparison and arithmetic
operation the claims evaluate is exact at the inputs considered, so the
rational model agrees with IEEE double behaviour there.  The norm test
np.linalg.norm(delta) > MIN_NORM is rendered by the equivalent squared
comparison (both sides are nonnegative); the equivalence with the real
square root is proved where the claim mentions the Euclidean norm.

-/

namespace PlotJog

/-! ## Constants (plotjog.py lines 12-14) -/

/-- FEEDRATE = 400 (mm / minute). -/
def FEEDRATE : ℕ := 400

/-- MAX_REACH = 0.2 (mm per command cycle at full deflection). -/
def MAX_REACH : ℚ := 1/5

/-- MIN_NORM = 0.2 (noise floor on the aggregate vector). -/
def MIN_NORM : ℚ := 1/5

/-! ## Joystick event decoding (joystick.py, Joystick.poll) -/

/-- Normalisation performed by Joystick.poll: fvalue = value / 32767.0,
where value was unpacked with struct format h (16-bit signed). -/
def fvalueOf (value : ℤ) : ℚ := value / 32767

/-- AxisChange namedtuple of joystick.py (the axis-name field, unused by
plotjog.py, is elided).  number is the raw axis index, ivalue the raw
16-bit signed value, fvalue the normalised value. -/
structure AxisChange where
  number : ℕ
  ivalue : ℤ
  fvalue : ℚ
deriving Repr, DecidableEq

/-- PollResult namedtuple of joystick.py restricted to the field plotjog.py
reads (changed_axis); the state-snapshot and button fields are elided as no
claim and no line of plotjog.py touches them. -/
structure PollResult where
  changed_axis : Option AxisChange
deriving Repr, DecidableEq

/-- Model of a raised Python exception. -/
inductive PyError where
  | attributeError (msg : String)
deriving Repr, DecidableEq

/-- Sparse update pair produced by poll_joystick: each coordinate is either
a freshly observed normalised value or None. -/
abbrev Upd := Option ℚ × Option ℚ

/-- Body of plotjog.poll_joystick after the None-check on changed_axis:
x, y start as None; axis number 0 sets x, axis number 1 sets y, any other
axis leaves both None. -/
def poll_axes (poll_result : PollResult) : Upd :=
  match poll_result.changed_axis with
  | none => (none, none)
  | some axis =>
    if axis.number = 0 then (some axis.fvalue, none)
    else if axis.number = 1 then (none, some axis.fvalue)
    else (none, none)

/-- plotjog.poll_joystick (lines 27-36).  The argument is the value returned
by in_stick.poll(): None when the device read produced no event.  The Python
code evaluates poll_result.changed_axis unconditionally, so a None poll
result raises AttributeError; that control flow is modelled by Except. -/
def poll_joystick (poll_result : Option PollResult) : Except PyError Upd :=
  match poll_result with
  | none =>
      Except.error (PyError.attributeError
        ("NoneType object has no attribute changed_axis"))
  | some pr => Except.ok (poll_axes pr)

/-! ## Intent aggregation (plotjog.py lines 38-39) -/

/-- Per-coordinate body of update_position: current if current is not None
else previous. -/
def holdCoord (current previous : Option ℚ) : Option ℚ :=
  match current with
  | some c => some c
  | none => previous

/-- plotjog.update_position: zips the update pair with the accumulator pair
and keeps the update coordinate when it is set, the accumulated one
otherwise. -/
def update_position (accu update : Upd) : Upd :=
  (holdCoord update.1 accu.1, holdCoord update.2 accu.2)

/-- Refinement target for the aggregator claim, written from the words of
the specification: the most recently supplied non-None value of a
coordinate update stream, or None when no value was ever supplied.  Later
updates take precedence, so the recursion consults the tail (the more
recent updates) first and falls back to the head. -/
def spec_most_recent : List (Option ℚ) → Option ℚ
  | [] => none
  | u :: us =>
    match spec_most_recent us with
    | some v => some v
    | none => u

/-! ## Single-slot mailbox (plotjog.py lines 43-56, 73-75)

The shared cell new_position is either None or holds one pending target;
all access is under the condition variable cv, so set and take are atomic
steps.  The mailbox state is therefore Option (target). -/

/-- Producer side (move_printer lines 73-75): under cv, overwrite the cell
with the new value and notify.  Any unconsumed previous value is
discarded. -/
def mailbox_set (_s : Option α) (v : α) : Option α := some v

/-- Consumer side (execute_move lines 53-56): under cv, wait_for a value;
when one is present read it and clear the cell.  Returns None when the cell
is empty, modelling that the consumer blocks (no value is returned). -/
def mailbox_take (s : Option α) : Option (α × Option α) :=
  match s with
  | some v => some (v, none)
  | none => none

/-- Operations arriving at the mailbox, in the order the lock admits them. -/
inductive MailboxOp (α : Type) where
  | set (v : α)
  | take
deriving Repr

/-- State transition of the mailbox cell under one operation.  A take on an
empty cell leaves the state unchanged (the consumer stays blocked on cv). -/
def mailbox_step (s : Option α) : MailboxOp α → Option α
  | MailboxOp.set v => mailbox_set s v
  | MailboxOp.take =>
    match mailbox_take s with
    | some (_, s2) => s2
    | none => s

/-- Mailbox state reached from the initial empty cell (new_position = None
at line 44) by a sequence of operations. -/
def mailbox_trace (ops : List (MailboxOp α)) : Option α :=
  ops.foldl mailbox_step none

/-- Number of unconsumed targets held by the mailbox. -/
def mailbox_pending (s : Option α) : ℕ :=
  match s with
  | some _ => 1
  | none => 0

/-! ## Sampler gate and mailbox write (plotjog.py lines 68-75) -/

/-- plotjog.move_printer: when the Euclidean norm of delta exceeds MIN_NORM
(equivalently, its square exceeds MIN_NORM squared), scale delta by
MAX_REACH and store it in the mailbox; otherwise do nothing. -/
def move_printer (mailbox : Option (ℚ × ℚ)) (delta : ℚ × ℚ) : Option (ℚ × ℚ) :=
  if delta.1 ^ 2 + delta.2 ^ 2 > MIN_NORM ^ 2 then
    mailbox_set mailbox (delta.1 * MAX_REACH, delta.2 * MAX_REACH)
  else
    mailbox

/-! ## The reactive pipeline (plotjog.py lines 41 and 77-81)

joystick_positions = Observable.interval(1).map(poll_joystick)
                       .scan(update_position, (0, 0))
then
joystick_positions.filter(all coordinates set)
  .combine_latest(Observable.interval(20), keep left)
  .subscribe(move_printer)

The two interval timers are modelled by an interleaved event list: a poll
event carries the sparse update pair produced by poll_joystick on that
1 ms tick, a tick event is one emission of the 20 ms interval.  Any
interleaving consistent with the timer periods is a possible event list.
Rx scan does not emit its seed; combine_latest emits the latest left value
whenever either side emits, once both sides have emitted at least once. -/

/-- One event on the merged timeline of the two interval sources. -/
inductive StreamEv where
  | poll (u : Upd)
  | tick
deriving Repr

/-- Decides whether an event is a command-interval tick. -/
def StreamEv.isTick : StreamEv → Bool
  | StreamEv.poll _ => false
  | StreamEv.tick => true

/-- State of the subscribed pipeline: the scan accumulator, the latest
pair that passed the completeness filter (the left latest of
combine_latest), whether the 20 ms interval has emitted yet (the right
latest), the mailbox cell, and the list of candidates delivered to
move_printer so far. -/
structure PipeState where
  accu : Upd
  latest : Option (ℚ × ℚ)
  tickSeen : Bool
  mailbox : Option (ℚ × ℚ)
  emitted : List (ℚ × ℚ)
deriving Repr

/-- Initial pipeline state.  The scan seed in plotjog.py line 41 is the
tuple (0, 0) of ordinary numbers — both coordinates are set from the
start — and the mailbox starts empty. -/
def pipeInit : PipeState :=
  { accu := (some 0, some 0)
    latest := none
    tickSeen := false
    mailbox := none
    emitted := [] }

/-- Delivery of one candidate to move_printer (the subscribe on_next). -/
def deliver (s : PipeState) (p : ℚ × ℚ) : PipeState :=
  { s with
    emitted := s.emitted ++ [p]
    mailbox := move_printer s.mailbox p }

/-- One step of the subscribed pipeline.  On a poll event the scan emits
the new accumulator; it passes the filter only when both coordinates are
set, updating the combine_latest left latest, and combine_latest emits it
downstream when the right side has already emitted.  On a tick event the
right side emits, and combine_latest emits the left latest when one
exists. -/
def pipeStep (s : PipeState) : StreamEv → PipeState
  | StreamEv.poll u =>
    let accu2 := update_position s.accu u
    match accu2.1, accu2.2 with
    | some x, some y =>
      let s2 := { s with accu := accu2, latest := some (x, y) }
      if s2.tickSeen then deliver s2 (x, y) else s2
    | some _, none => { s with accu := accu2 }
    | none, _ => { s with accu := accu2 }
  | StreamEv.tick =>
    let s2 := { s with tickSeen := true }
    match s2.latest with
    | some p => deliver s2 p
    | none => s2

/-- Pipeline state after a finite merged event list. -/
def pipeRun (evs : List StreamEv) : PipeState :=
  evs.foldl pipeStep pipeInit

/-! ## Actuation transport (plotjog.py lines 22-25 and 50-61)

send_gcode(s) performs tty.flushInput(); tty.write(s + newline);
tty.readline().  The wire-level trace of one call is the three actions in
that order.  execute_move consumes a target from the mailbox and calls
send_gcode twice: first the mode directive G91, then the formatted move
line with dx, negated dy and the fixed feed rate. -/

/-- One observable action on the serial transport. -/
inductive TAct where
  | flushInput
  | write (bytes : String)
  | readLine
deriving Repr, DecidableEq

/-- Action trace of one send_gcode(s) call: flush the input buffer, write
the line plus a trailing newline, read one response line. -/
def send_gcode (s : String) : List TAct :=
  [TAct.flushInput, TAct.write (s ++ "\n"), TAct.readLine]

/-- Formatting of a rational with exactly three decimal places, mirroring
the Python fixed-point format with precision 3 used at line 61.  Rounds to
the nearest thousandth; at the values the claims evaluate the argument is
an exact multiple of one thousandth, so no tie-breaking rule is
exercised. -/
def fmt3 (q : ℚ) : String :=
  let n : ℤ := ⌊q * 1000 + 1/2⌋
  let sign := if n < 0 then ("-") else ("")
  let m := n.natAbs
  let ip := m / 1000
  let fp := m % 1000
  sign ++ toString ip ++ "." ++ (toString (fp + 1000)).drop 1

/-- The move directive built at line 61 from the consumed target: dx with
three decimals, dy negated with three decimals, and the feed rate. -/
def g1_line (dx dy : ℚ) : String :=
  "G1 X" ++ fmt3 dx ++ " Y" ++ fmt3 (-dy) ++ " F" ++ toString FEEDRATE

/-- Wire-level action trace of one activation of the execute_move loop body
after it consumed the target from the mailbox (lines 58-61). -/
def execute_move_once (target : ℚ × ℚ) : List TAct :=
  send_gcode ("G91") ++ send_gcode (g1_line target.1 target.2)

/-! ## Failure propagation in the actuation loop

Each send_gcode call is one round trip on the serial transport.  The device
behaviour is an oracle assigning every round trip, in order, an outcome:
a response line, a failure raised before the write happened (flushInput or
write raised), or a failure raised after the write (readline raised).
Python exceptions are uncaught in send_gcode and execute_move, so a failure
aborts the loop; the model returns the lines written so far together with
the outcome. -/

/-- Outcome of one serial round trip. -/
inductive RoundOutcome where
  | ok (resp : String)
  | failBeforeWrite (msg : String)
  | failAfterWrite (msg : String)
deriving Repr, DecidableEq

/-- Decides whether a round-trip outcome is a raised exception. -/
def RoundOutcome.isFailure : RoundOutcome → Bool
  | RoundOutcome.ok _ => false
  | RoundOutcome.failBeforeWrite _ => true
  | RoundOutcome.failAfterWrite _ => true

/-- Lines written by one send_gcode round trip whose outcome is given, and
the result of the call: the response line, or the propagated exception
message. -/
def sendRound (outcome : RoundOutcome) (line : String) :
    List String × Except String String :=
  match outcome with
  | RoundOutcome.ok resp => ([line], Except.ok resp)
  | RoundOutcome.failBeforeWrite msg => ([], Except.error msg)
  | RoundOutcome.failAfterWrite msg => ([line], Except.error msg)

/-- The execute_move loop processing a finite list of consumed targets
against a device oracle, starting at round-trip index k.  Each target
issues the G91 round trip and then the move-line round trip; the first
raised exception aborts the loop with no retry.  Returns all lines written
and the final result. -/
def run_moves (dev : ℕ → RoundOutcome) (k : ℕ) :
    List (ℚ × ℚ) → List String × Except String Unit
  | [] => ([], Except.ok ())
  | t :: rest =>
    let r1 := sendRound (dev k) "G91"
    match r1.2 with
    | Except.error e => (r1.1, Except.error e)
    | Except.ok _ =>
      let r2 := sendRound (dev (k + 1)) (g1_line t.1 t.2)
      match r2.2 with
      | Except.error e => (r1.1 ++ r2.1, Except.error e)
      | Except.ok _ =>
        let tailRes := run_moves dev (k + 2) rest
        (r1.1 ++ r2.1 ++ tailRes.1, tailRes.2)

/-- Device oracle whose every round trip raises after the write, used to
evaluate the failure-propagation theorem at a concrete input. -/
def devAlwaysFails : ℕ → RoundOutcome :=
  fun _ => RoundOutcome.failAfterWrite ("SerialException")

/-! ## Helper lemmas -/

/-- Folding one coordinate of update_position from any starting value
yields the most recently supplied value, falling back to the start. -/
lemma foldl_holdCoord (us : List (Option ℚ)) (acc : Option ℚ) :
    us.foldl (fun p c => holdCoord c p) acc =
      match spec_most_recent us with
      | some v => some v
      | none => acc := by
  induction us generalizing acc with
  | nil => rfl
  | cons u us ih =>
    show us.foldl (fun p c => holdCoord c p) (holdCoord u acc) = _
    rw [ih (holdCoord u acc)]
    show _ = (match spec_most_recent (u :: us) with
      | some v => some v
      | none => acc)
    show _ = (match (match spec_most_recent us with
        | some v => some v
        | none => u) with
      | some v => some v
      | none => acc)
    cases spec_most_recent us with
    | some v => rfl
    | none => cases u <;> rfl

/-- Folding update_position over a list of sparse pairs acts on the two
coordinates independently. -/
lemma foldl_update_position (updates : List Upd) (init : Upd) :
    updates.foldl update_position init =
      ((updates.map Prod.fst).foldl (fun p c => holdCoord c p) init.1,
       (updates.map Prod.snd).foldl (fun p c => holdCoord c p) init.2) := by
  induction updates generalizing init with
  | nil => rfl
  | cons u us ih =>
    show us.foldl update_position (update_position init u) = _
    rw [ih (update_position init u)]
    rfl

/-- Bridge between the Euclidean-norm reading of the noise floor and the
exact rational comparison evaluated by the code: for the nonnegative bound
MIN_NORM, the norm is at most the bound iff the squared norm is. -/
lemma sqrt_gate_le (v : ℚ × ℚ) :
    Real.sqrt ((v.1 : ℝ) ^ 2 + (v.2 : ℝ) ^ 2) ≤ ((MIN_NORM : ℚ) : ℝ) ↔
      v.1 ^ 2 + v.2 ^ 2 ≤ MIN_NORM ^ 2 := by
  rw [Real.sqrt_le_left (by norm_num [MIN_NORM])]
  constructor <;> intro h <;> exact_mod_cast h

/-- Strict counterpart of the previous bridge. -/
lemma sqrt_gate_lt (v : ℚ × ℚ) :
    ((MIN_NORM : ℚ) : ℝ) < Real.sqrt ((v.1 : ℝ) ^ 2 + (v.2 : ℝ) ^ 2) ↔
      MIN_NORM ^ 2 < v.1 ^ 2 + v.2 ^ 2 := by
  rw [Real.lt_sqrt (by norm_num [MIN_NORM])]
  constructor <;> intro h <;> exact_mod_cast h

/-! ## Claim theorems -/

/-- Claim C1: for the single-slot mailbox, set(a) followed by set(b) with
no intervening take makes takeBlocking return exactly b and never a;
takeBlocking reads and clears the cell, so the cleared cell makes an
immediately subsequent takeBlocking block (no value returned); and every
state reachable by any operation sequence holds at most one unconsumed
target. -/
theorem mailbox_overwrite_law :
    ∀ (s : Option (ℚ × ℚ)) (a b : ℚ × ℚ),
      mailbox_take (mailbox_set (mailbox_set s a) b) = some (b, none)
      ∧ (a ≠ b →
          ∀ s2 : Option (ℚ × ℚ),
            mailbox_take (mailbox_set (mailbox_set s a) b) ≠ some (a, s2))
      ∧ mailbox_take (none : Option (ℚ × ℚ)) = none
      ∧ ∀ ops : List (MailboxOp (ℚ × ℚ)),
          mailbox_pending (mailbox_trace ops) ≤ 1 := by
  intro s a b
  refine ⟨rfl, ?_, rfl, ?_⟩
  · intro hab s2 h
    simp only [mailbox_set, mailbox_take, Option.some.injEq, Prod.mk.injEq] at h
    exact hab h.1.symm
  · intro ops
    cases mailbox_trace ops <;> simp [mailbox_pending]

/-- Witness for C1 at the concrete states and targets s = none,
a = (1, 1), b = (2, 2). -/
theorem mailbox_overwrite_law_witness :
    ((1, 1) : ℚ × ℚ) ≠ (2, 2)
    ∧ mailbox_take (mailbox_set (mailbox_set (none : Option (ℚ × ℚ)) (1, 1)) (2, 2)) =
        some ((2, 2), none)
    ∧ mailbox_take (mailbox_set (mailbox_set (none : Option (ℚ × ℚ)) (1, 1)) (2, 2)) ≠
        some ((1, 1), none) := by
  have hne : ((1, 1) : ℚ × ℚ) ≠ (2, 2) := by
    intro h
    exact absurd (congrArg Prod.fst h) (by norm_num)
  obtain ⟨h1, h2, -, -⟩ := mailbox_overwrite_law none (1, 1) (2, 2)
  exact ⟨hne, h1, h2 hne none⟩

/-- Claim C5: for every aggregate vector, if its Euclidean norm is at most
MIN_NORM then move_printer leaves the mailbox unchanged, and if the norm
strictly exceeds MIN_NORM then move_printer stores exactly the vector
scaled componentwise by MAX_REACH. -/
theorem move_printer_norm_gate :
    ∀ (mb : Option (ℚ × ℚ)) (v : ℚ × ℚ),
      (Real.sqrt ((v.1 : ℝ) ^ 2 + (v.2 : ℝ) ^ 2) ≤ ((MIN_NORM : ℚ) : ℝ) →
        move_printer mb v = mb)
      ∧ (((MIN_NORM : ℚ) : ℝ) < Real.sqrt ((v.1 : ℝ) ^ 2 + (v.2 : ℝ) ^ 2) →
        move_printer mb v = some (v.1 * MAX_REACH, v.2 * MAX_REACH)) := by
  intro mb v
  constructor
  · intro h
    have hq : v.1 ^ 2 + v.2 ^ 2 ≤ MIN_NORM ^ 2 := (sqrt_gate_le v).mp h
    unfold move_printer
    rw [if_neg (not_lt.mpr hq)]
  · intro h
    have hq : MIN_NORM ^ 2 < v.1 ^ 2 + v.2 ^ 2 := (sqrt_gate_lt v).mp h
    unfold move_printer
    rw [if_pos hq]
    rfl

/-- Witness for C5: the sub-floor vector (0.1, 0.1) stores nothing and the
above-floor vector (0.5, -0.5) stores exactly (0.1, -0.1). -/
theorem move_printer_norm_gate_witness :
    move_printer none (1/10, 1/10) = none
    ∧ move_printer none (1/2, -(1/2)) = some (1/10, -(1/10)) := by
  have h1 := (move_printer_norm_gate none (1/10, 1/10)).1
    ((sqrt_gate_le (1/10, 1/10)).mpr (by norm_num [MIN_NORM]))
  have h2 := (move_printer_norm_gate none (1/2, -(1/2))).2
    ((sqrt_gate_lt (1/2, -(1/2))).mpr (by norm_num [MIN_NORM]))
  refine ⟨h1, ?_⟩
  rw [h2]
  norm_num [MAX_REACH]

/-- Claim C6: folding any finite sequence of sparse updates with
update_position from the unset pair yields, on each coordinate, the most
recently supplied non-None value for that coordinate, or leaves it unset
when never supplied; and an update carrying None for a coordinate leaves
that coordinate unchanged while a supplied value replaces it. -/
theorem update_position_most_recent :
    (∀ updates : List Upd,
      (updates.foldl update_position (none, none)).1 =
        spec_most_recent (updates.map Prod.fst)
      ∧ (updates.foldl update_position (none, none)).2 =
        spec_most_recent (updates.map Prod.snd))
    ∧ (∀ (accu : Upd) (u2 : Option ℚ),
        (update_position accu (none, u2)).1 = accu.1)
    ∧ (∀ (accu : Upd) (u1 : Option ℚ),
        (update_position accu (u1, none)).2 = accu.2)
    ∧ (∀ (accu : Upd) (c : ℚ) (u2 : Option ℚ),
        (update_position accu (some c, u2)).1 = some c)
    ∧ (∀ (accu : Upd) (c : ℚ) (u1 : Option ℚ),
        (update_position accu (u1, some c)).2 = some c) := by
  refine ⟨?_, fun accu u2 => rfl, fun accu u1 => rfl,
    fun accu c u2 => rfl, fun accu c u1 => rfl⟩
  intro updates
  rw [foldl_update_position updates (none, none)]
  constructor
  · show (updates.map Prod.fst).foldl (fun p c => holdCoord c p) none = _
    rw [foldl_holdCoord]
    cases spec_most_recent (updates.map Prod.fst) <;> rfl
  · show (updates.map Prod.snd).foldl (fun p c => holdCoord c p) none = _
    rw [foldl_holdCoord]
    cases spec_most_recent (updates.map Prod.snd) <;> rfl

/-- Claim C8 (the code contradicts it): when Joystick.poll yields no event
(None), plotjog.poll_joystick dereferences changed_axis on None and raises
AttributeError instead of returning (None, None); when an event is
present, it returns the decoded sparse pair normally. -/
theorem poll_joystick_none_raises :
    poll_joystick none =
      Except.error (PyError.attributeError
        ("NoneType object has no attribute changed_axis"))
    ∧ ∀ pr : PollResult, poll_joystick (some pr) = Except.ok (poll_axes pr) :=
  ⟨rfl, fun _ => rfl⟩

/-- Claim C10: a pair returned by a successful poll_joystick call has at
most one set coordinate, and both coordinates are None when the poll
result carries no changed axis or a changed axis whose index is neither 0
nor 1. -/
theorem poll_axes_single_axis :
    ∀ pr : PollResult,
      ¬((poll_axes pr).1.isSome = true ∧ (poll_axes pr).2.isSome = true)
      ∧ (pr.changed_axis = none → poll_axes pr = (none, none))
      ∧ (∀ ax : AxisChange, pr.changed_axis = some ax →
          ax.number ≠ 0 → ax.number ≠ 1 → poll_axes pr = (none, none)) := by
  intro pr
  obtain ⟨ca⟩ := pr
  cases ca with
  | none =>
    refine ⟨by simp [poll_axes], fun _ => rfl, ?_⟩
    intro ax hax h0 h1
    exact Option.noConfusion hax
  | some ax =>
    refine ⟨?_, ?_, ?_⟩
    · by_cases h0 : ax.number = 0 <;> by_cases h1 : ax.number = 1 <;>
        simp [poll_axes, h0, h1]
    · intro h
      exact Option.noConfusion h
    · intro ax2 hax h0 h1
      obtain rfl := Option.some.inj hax
      simp [poll_axes, h0, h1]

/-- Witness for C10 at a missing changed axis and at an axis of index 2. -/
theorem poll_axes_single_axis_witness :
    poll_axes ⟨none⟩ = (none, none)
    ∧ poll_axes ⟨some ⟨2, 5, fvalueOf 5⟩⟩ = (none, none) := by
  refine ⟨(poll_axes_single_axis ⟨none⟩).2.1 rfl, ?_⟩
  exact (poll_axes_single_axis ⟨some ⟨2, 5, fvalueOf 5⟩⟩).2.2
    ⟨2, 5, fvalueOf 5⟩ rfl (by norm_num) (by norm_num)

/-- Claim C2 (the code contradicts it): the scan seed at plotjog.py line 41
is the ordinary pair (0, 0), so the completeness filter of line 78 passes
from the very first update.  An input carrying only one axis-0 update of
0.5 and no axis-1 update, followed by one command tick, already delivers
the candidate (0.5, 0) to move_printer, and since its norm clears the
noise floor the mailbox receives (0.1, 0) — not zero sampled candidates as
the claim states. -/
theorem incomplete_aggregate_forwarded :
    (pipeRun [StreamEv.poll (some (1/2), none), StreamEv.tick]).emitted = [(1/2, 0)]
    ∧ (pipeRun [StreamEv.poll (some (1/2), none), StreamEv.tick]).mailbox =
        some (1/10, 0) := by
  constructor <;>
    norm_num [pipeRun, pipeStep, pipeInit, update_position, holdCoord, deliver,
      move_printer, mailbox_set, MIN_NORM, MAX_REACH]

/-- Claim C3 (the code contradicts it): combine_latest emits whenever
either side emits once both have, so the candidate rate is not capped at
one per command tick.  On the merged timeline below only one command tick
occurs, yet three candidates are delivered to move_printer: one at the
tick and one more for each aggregate update that follows the tick. -/
theorem rate_not_capped :
    (pipeRun [StreamEv.poll (some (1/2), some (1/2)), StreamEv.tick,
      StreamEv.poll (some (3/5), none), StreamEv.poll (some (7/10), none)]).emitted =
      [(1/2, 1/2), (3/5, 1/2), (7/10, 1/2)]
    ∧ ([StreamEv.poll ((some (1/2), some (1/2)) : Upd), StreamEv.tick,
        StreamEv.poll (some (3/5), none),
        StreamEv.poll (some (7/10), none)].countP StreamEv.isTick) = 1 := by
  constructor
  · norm_num [pipeRun, pipeStep, pipeInit, update_position, holdCoord, deliver,
      move_printer, mailbox_set, MIN_NORM, MAX_REACH]
  · rfl

/-- Claim C4: each activation of the actuation loop flushes the input
buffer, writes the mode directive G91 with a trailing newline, reads one
response line, then flushes again, writes the move directive built from dx
and negated dy with three decimals and the fixed feed rate, and reads one
response line; for the consumed target (0.1, -0.1) the two written lines
are G91 and G1 X0.100 Y0.100 F400. -/
theorem execute_move_wire_format :
    (∀ dx dy : ℚ, execute_move_once (dx, dy) =
      [TAct.flushInput, TAct.write ("G91" ++ "\n"), TAct.readLine,
       TAct.flushInput, TAct.write (g1_line dx dy ++ "\n"), TAct.readLine])
    ∧ execute_move_once (1/10, -(1/10)) =
      [TAct.flushInput, TAct.write ("G91" ++ "\n"), TAct.readLine,
       TAct.flushInput, TAct.write ("G1 X0.100 Y0.100 F400" ++ "\n"),
       TAct.readLine] := by
  refine ⟨fun dx dy => rfl, ?_⟩
  show ([TAct.flushInput, TAct.write ("G91" ++ "\n"), TAct.readLine] ++
    [TAct.flushInput, TAct.write (g1_line (1/10) (-(1/10)) ++ "\n"),
      TAct.readLine]) = _
  have hline : g1_line (1/10) (-(1/10)) = "G1 X0.100 Y0.100 F400" := by
    simp only [g1_line, fmt3]
    rw [show (-(-(1/10) : ℚ)) = 1/10 by norm_num,
      show (⌊(1/10 : ℚ) * 1000 + 1/2⌋ : ℤ) = 100 by norm_num]
    decide
  rw [hline]
  rfl

/-- Claim C7 is refuted at the most negative 16-bit signed value: -32768
lies in the range of the struct h decode, yet its normalised value
-32768 / 32767 is strictly below -1. -/
theorem fvalue_range_counterexample :
    (-(2 : ℤ) ^ 15 ≤ -32768 ∧ (-32768 : ℤ) ≤ 2 ^ 15 - 1)
    ∧ fvalueOf (-32768) < -1 := by
  refine ⟨⟨by norm_num, by norm_num⟩, ?_⟩
  norm_num [fvalueOf]

/-- Claim C7 as amended: for every raw 16-bit signed event value, the
normalised axis value lies in the closed interval from -32768/32767 to 1;
in particular it lies in [-1, 1] for every value except -32768. -/
theorem fvalue_amended_bounds :
    ∀ v : ℤ, -(2 : ℤ) ^ 15 ≤ v → v ≤ 2 ^ 15 - 1 →
      (-(32768 / 32767) : ℚ) ≤ fvalueOf v ∧ fvalueOf v ≤ 1 := by
  intro v h1 h2
  have hv1 : (-32768 : ℚ) ≤ (v : ℚ) := by exact_mod_cast h1
  have hv2 : ((v : ℚ)) ≤ 32767 := by
    have : v ≤ (32767 : ℤ) := by linarith [h2]
    exact_mod_cast this
  unfold fvalueOf
  constructor
  · rw [show (-(32768 / 32767) : ℚ) = (-32768) / 32767 by ring]
    exact div_le_div_of_nonneg_right hv1 (by norm_num) |>.trans_eq rfl
  · rw [div_le_one (by norm_num)]
    exact hv2

/-- Witness for the amended C7 at the extreme value -32768. -/
theorem fvalue_amended_bounds_witness :
    (-(2 : ℤ) ^ 15 ≤ -32768 ∧ (-32768 : ℤ) ≤ 2 ^ 15 - 1)
    ∧ (-(32768 / 32767) : ℚ) ≤ fvalueOf (-32768)
    ∧ fvalueOf (-32768) ≤ 1 := by
  refine ⟨⟨by norm_num, by norm_num⟩, ?_⟩
  exact fvalue_amended_bounds (-32768) (by norm_num) (by norm_num)

/-- Claim C9: when a serial round trip of send_gcode raises — whether in
the G91 round trip or in the move-line round trip — the exception
propagates out of the loop as its result, no retry happens, and the loop
writes nothing further: the outcome on a target list is identical to the
outcome on the failing head alone, for every continuation of the list. -/
theorem send_failure_halts_loop :
    ∀ (dev : ℕ → RoundOutcome) (k : ℕ) (t : ℚ × ℚ) (rest : List (ℚ × ℚ))
      (e : String),
      ((dev k = RoundOutcome.failBeforeWrite e
          ∨ dev k = RoundOutcome.failAfterWrite e) →
        run_moves dev k (t :: rest) = run_moves dev k [t]
        ∧ (run_moves dev k (t :: rest)).2 = Except.error e)
      ∧ (∀ r : String, dev k = RoundOutcome.ok r →
          (dev (k + 1) = RoundOutcome.failBeforeWrite e
            ∨ dev (k + 1) = RoundOutcome.failAfterWrite e) →
          run_moves dev k (t :: rest) = run_moves dev k [t]
          ∧ (run_moves dev k (t :: rest)).2 = Except.error e) := by
  intro dev k t rest e
  constructor
  · rintro (h | h) <;> simp [run_moves, sendRound, h]
  · intro r hok
    rintro (h | h) <;> simp [run_moves, sendRound, hok, h]

/-- Witness for C9: a device whose round trips all raise after the write
makes the loop on two targets behave exactly as on the first target alone
and finish with the propagated exception. -/
theorem send_failure_halts_loop_witness :
    devAlwaysFails 0 = RoundOutcome.failAfterWrite ("SerialException")
    ∧ run_moves devAlwaysFails 0 [(1/10, -(1/10)), (1, 1)] =
        run_moves devAlwaysFails 0 [(1/10, -(1/10))]
    ∧ (run_moves devAlwaysFails 0 [(1/10, -(1/10)), (1, 1)]).2 =
        Except.error ("SerialException") := by
  have h := (send_failure_halts_loop devAlwaysFails 0 (1/10, -(1/10)) [(1, 1)]
    "SerialException").1 (Or.inr rfl)
  exact ⟨rfl, h.1, h.2⟩

end PlotJog
